import Mathlib

set_option linter.unusedVariables false

/-
Shallow embedding of src/mongodbforms/fieldgenerator.py.

The module maps mongoengine field descriptors onto Django form fields.
We model a descriptor as a record of the attributes the generator reads
(FieldInfo), with an optional nested element descriptor for list and map
kinds (FieldDesc).  A generated form field is modelled as its class name,
its positional constructor arguments, and the keyword-argument dictionary
that is actually passed to the constructor.  Python dictionaries are
association lists; defaults.update(kwargs) is modelled by updateDict,
which gives kwargs entries precedence over computed defaults (kwargs
cannot carry duplicate keys in Python, so lookup results agree).
Raised exceptions are modelled with Except: NotImplementedError
(the spec name is UnsupportedKind) and AttributeError.
-/

namespace Mongodbforms

/-- A value stored in a mongoengine choices list: a string or an integer. -/
inductive ChoiceVal : Type where
  | s (v : String)
  | i (v : Int)
  deriving DecidableEq

/-- Values that occur as constructor arguments of generated form fields. -/
inductive Val : Type where
  | none
  | str (s : String)
  | int (n : Int)
  | bool (b : Bool)
  | pairs (l : List (ChoiceVal × String))
  | widgetTextarea
  | widgetCheckboxMultiple
  | coerceStr
  | coerceInt
  | coerceBool
  | queryset (doc : String)
  | fieldClass (cls : String)
  deriving DecidableEq

/-- A Python keyword-argument dictionary. -/
abbrev Dict := List (String × Val)

/-- Dictionary lookup: first entry whose key matches. -/
def lookupD (d : Dict) (k : String) : Option Val :=
  (d.find? (fun p => p.fst == k)).map (fun p => p.snd)

/-- Model of defaults.update(kwargs): kwargs entries take precedence over
the computed defaults.  Python kwargs have unique keys, so observing the
result through lookupD agrees with CPython dict semantics. -/
def updateDict (defaults kw : Dict) : Dict :=
  kw ++ defaults.filter (fun p => !(kw.any (fun q => q.fst == p.fst)))

/-- Python truthiness of an optional string: None and the empty string are falsy. -/
def truthyStr : Option String → Bool
  | Option.none => false
  | Option.some s => !(s.isEmpty)

/-- Python truthiness of an optional number: None and 0 are falsy. -/
def truthyNum : Option Int → Bool
  | Option.none => false
  | Option.some n => !(n == 0)

/-- An optional Python int as a constructor-argument value. -/
def optIntVal : Option Int → Val
  | Option.none => Val.none
  | Option.some n => Val.int n

/-- Python str.lower restricted to ASCII, the case relevant to class names
and submitted form values. -/
def strLower (s : String) : String := String.mk (s.data.map Char.toLower)

/-- Python str.strip: drop leading and trailing whitespace. -/
def pyStrip (s : String) : String :=
  String.mk (((s.data.dropWhile Char.isWhitespace).reverse.dropWhile Char.isWhitespace).reverse)

/-- django.utils.text.capfirst: upper-case the first character, keep the rest. -/
def capfirst (s : String) : String :=
  match s.data with
  | [] => s
  | c :: rest => String.mk (c.toUpper :: rest)

/-- Python str.capitalize: upper-case the first character and lower-case the rest. -/
def pyCapitalize (s : String) : String :=
  match s.data with
  | [] => s
  | c :: rest => String.mk (c.toUpper :: rest.map (fun x => x.toLower))

/-- The camel-case splitting regex of django get_verbose_name: insert a space
before an upper-case character that is preceded by a lower-case character, or
that is followed by a character which is not upper-case. -/
def camelSpace : Option Char → List Char → List Char
  | _, [] => []
  | prev, c :: rest =>
    let prevLower : Bool :=
      match prev with
      | Option.some p => p.isLower
      | Option.none => false
    let nextNotUpper : Bool :=
      match rest with
      | n :: _ => !(n.isUpper)
      | [] => false
    if c.isUpper && (prevLower || nextNotUpper) then
      ' ' :: c :: camelSpace (Option.some c) rest
    else
      c :: camelSpace (Option.some c) rest

/-- django.db.models.options.get_verbose_name: split camel case, lower, strip. -/
def get_verbose_name (s : String) : String :=
  pyStrip (strLower (String.mk (camelSpace Option.none s.data)))

/-- The attributes of a mongoengine field descriptor that the generator reads.
The hasMinLength, hasMaxLength and hasDefault flags model hasattr checks;
isRefInstance and isEmbeddedInstance model the isinstance checks against
ReferenceField and EmbeddedDocumentField. -/
structure FieldInfo : Type where
  className : String
  bases : List String
  verboseName : Option String
  name : Option String
  helpText : Option String
  default : Val
  required : Bool
  choices : List (ChoiceVal × String)
  maxLength : Option Int
  minLength : Option Int
  maxValue : Option Int
  minValue : Option Int
  regex : Option String
  documentType : String
  hasMinLength : Bool
  hasMaxLength : Bool
  hasDefault : Bool
  isRefInstance : Bool
  isEmbeddedInstance : Bool
  deriving DecidableEq

/-- A field descriptor: its own attributes, plus the nested element descriptor
(the field.field attribute) when the descriptor is a list or map kind. -/
inductive FieldDesc : Type where
  | base (info : FieldInfo)
  | withElem (info : FieldInfo) (elem : FieldDesc)
  deriving DecidableEq

/-- The scalar attributes of a descriptor. -/
def FieldDesc.info : FieldDesc → FieldInfo
  | FieldDesc.base i => i
  | FieldDesc.withElem i _ => i

/-- The exceptions the generator can raise. -/
inductive PyErr : Type where
  | notImplemented
  | attrError
  deriving DecidableEq

/-- The two generator variants: MongoFormFieldGenerator (strict) and
MongoDefaultFormFieldGenerator (lenient). -/
inductive Variant : Type where
  | strict
  | lenient
  deriving DecidableEq

/-- A generated Django form field: its class, its positional constructor
arguments, and the keyword arguments actually passed to the constructor. -/
structure FormField : Type where
  cls : String
  posArgs : List Val
  args : Dict
  deriving DecidableEq

/-- The outcome of a generate call: an exception, a form field, or Python None
(returned when generate_listfield falls through every branch, or when the
dispatch loop runs over an empty list of base classes). -/
abbrev GenResult := Except PyErr (Option FormField)

/-- MongoFormFieldGenerator.get_field_label. -/
def get_field_label (i : FieldInfo) : Val :=
  if truthyStr i.verboseName then
    Val.str (i.verboseName.getD (""))
  else
    match i.name with
    | Option.some n => Val.str (capfirst (get_verbose_name n))
    | Option.none => Val.str ("")

/-- MongoFormFieldGenerator.get_field_help_text; returns Python None when the
help text is falsy. -/
def get_field_help_text (i : FieldInfo) : Val :=
  if truthyStr i.helpText then
    Val.str (pyCapitalize (i.helpText.getD ("")))
  else
    Val.none

def BLANK_CHOICE_DASH : List (ChoiceVal × String) := [(ChoiceVal.s (""), "---------")]

/-- MongoFormFieldGenerator.get_field_choices; every call site uses the
default include_blank=True, so the blank sentinel pair is always prepended. -/
def get_field_choices (i : FieldInfo) : List (ChoiceVal × String) :=
  BLANK_CHOICE_DASH ++ i.choices

/-- A submitted form value, as seen by the coercion helpers. -/
inductive Submitted : Type where
  | pynone
  | pystr (s : String)
  | pylist (n : Nat)
  | pytuple (n : Nat)
  | pydict (n : Nat)
  deriving DecidableEq

/-- Membership test value in EMPTY_VALUES, EMPTY_VALUES being
(None, empty string, empty list, empty tuple, empty dict). -/
def inEmptyValues : Submitted → Bool
  | Submitted.pynone => true
  | Submitted.pystr s => s == ""
  | Submitted.pylist n => n == 0
  | Submitted.pytuple n => n == 0
  | Submitted.pydict n => n == 0

/-- MongoFormFieldGenerator.boolean_field: the coercion attached to boolean
choice fields.  Accessing .lower on a non-string raises AttributeError. -/
def boolean_field (v : Submitted) : Except PyErr (Option Bool) :=
  if inEmptyValues v then Except.ok Option.none
  else
    match v with
    | Submitted.pystr s => Except.ok (Option.some (strLower s == "true"))
    | _ => Except.error PyErr.attrError

/-- MongoFormFieldGenerator.string_field: the coercion attached to string
choice fields: None on empty values, text conversion otherwise. -/
def string_field (v : Submitted) : Option Submitted :=
  if inEmptyValues v then Option.none else Option.some v

/-- MongoFormFieldGenerator.generate_stringfield. -/
def generate_stringfield (i : FieldInfo) (kw : Dict) : FormField :=
  let defaults0 : Dict :=
    [("label", get_field_label i), ("initial", i.default),
     ("required", Val.bool i.required), ("help_text", get_field_help_text i)]
  let defaults1 : Dict :=
    if truthyNum i.maxLength && i.choices.isEmpty then
      defaults0 ++ [("max_length", optIntVal i.maxLength)]
    else defaults0
  let defaults2 : Dict :=
    if i.maxLength.isNone && i.choices.isEmpty then
      defaults1 ++ [("widget", Val.widgetTextarea)]
    else defaults1
  if i.regex.isSome then
    FormField.mk ("MongoCharField") []
      (updateDict (defaults2 ++ [("regex", Val.str (i.regex.getD ("")))]) kw)
  else if !(i.choices.isEmpty) then
    let defaults3 : Dict :=
      defaults2 ++ [("choices", Val.pairs (get_field_choices i)), ("coerce", Val.coerceStr)]
    let defaults4 : Dict :=
      if !(i.required) then defaults3 ++ [("empty_value", Val.none)] else defaults3
    FormField.mk ("TypedChoiceField") [] (updateDict defaults4 kw)
  else
    FormField.mk ("MongoCharField") [] (updateDict defaults2 kw)

/-- MongoFormFieldGenerator.generate_emailfield. -/
def generate_emailfield (i : FieldInfo) (kw : Dict) : FormField :=
  FormField.mk ("EmailField") []
    (updateDict
      [("required", Val.bool i.required), ("min_length", optIntVal i.minLength),
       ("max_length", optIntVal i.maxLength), ("initial", i.default),
       ("label", get_field_label i), ("help_text", get_field_help_text i)] kw)

/-- MongoFormFieldGenerator.generate_urlfield. -/
def generate_urlfield (i : FieldInfo) (kw : Dict) : FormField :=
  FormField.mk ("URLField") []
    (updateDict
      [("required", Val.bool i.required), ("min_length", optIntVal i.minLength),
       ("max_length", optIntVal i.maxLength), ("initial", i.default),
       ("label", get_field_label i), ("help_text", get_field_help_text i)] kw)

/-- MongoFormFieldGenerator.generate_intfield. -/
def generate_intfield (i : FieldInfo) (kw : Dict) : FormField :=
  if !(i.choices.isEmpty) then
    FormField.mk ("TypedChoiceField") []
      (updateDict
        [("coerce", Val.coerceInt), ("empty_value", Val.none),
         ("required", Val.bool i.required), ("initial", i.default),
         ("label", get_field_label i), ("choices", Val.pairs (get_field_choices i)),
         ("help_text", get_field_help_text i)] kw)
  else
    FormField.mk ("IntegerField") []
      (updateDict
        [("required", Val.bool i.required), ("min_value", optIntVal i.minValue),
         ("max_value", optIntVal i.maxValue), ("initial", i.default),
         ("label", get_field_label i), ("help_text", get_field_help_text i)] kw)

/-- MongoFormFieldGenerator.generate_floatfield. -/
def generate_floatfield (i : FieldInfo) (kw : Dict) : FormField :=
  FormField.mk ("FloatField") []
    (updateDict
      [("label", get_field_label i), ("initial", i.default),
       ("required", Val.bool i.required), ("min_value", optIntVal i.minValue),
       ("max_value", optIntVal i.maxValue), ("help_text", get_field_help_text i)] kw)

/-- MongoFormFieldGenerator.generate_decimalfield. -/
def generate_decimalfield (i : FieldInfo) (kw : Dict) : FormField :=
  FormField.mk ("DecimalField") []
    (updateDict
      [("label", get_field_label i), ("initial", i.default),
       ("required", Val.bool i.required), ("min_value", optIntVal i.minValue),
       ("max_value", optIntVal i.maxValue), ("help_text", get_field_help_text i)] kw)

/-- MongoFormFieldGenerator.generate_booleanfield. -/
def generate_booleanfield (i : FieldInfo) (kw : Dict) : FormField :=
  if !(i.choices.isEmpty) then
    FormField.mk ("TypedChoiceField") []
      (updateDict
        [("coerce", Val.coerceBool), ("empty_value", Val.none),
         ("required", Val.bool i.required), ("initial", i.default),
         ("label", get_field_label i), ("choices", Val.pairs (get_field_choices i)),
         ("help_text", get_field_help_text i)] kw)
  else
    FormField.mk ("BooleanField") []
      (updateDict
        [("required", Val.bool i.required), ("initial", i.default),
         ("label", get_field_label i), ("help_text", get_field_help_text i)] kw)

/-- MongoFormFieldGenerator.generate_datetimefield. -/
def generate_datetimefield (i : FieldInfo) (kw : Dict) : FormField :=
  FormField.mk ("DateTimeField") []
    (updateDict
      [("required", Val.bool i.required), ("initial", i.default),
       ("label", get_field_label i)] kw)

/-- MongoFormFieldGenerator.generate_referencefield: the queryset
field.document_type.objects is the positional argument. -/
def generate_referencefield (i : FieldInfo) (kw : Dict) : FormField :=
  FormField.mk ("ReferenceField") [Val.queryset i.documentType]
    (updateDict
      [("label", get_field_label i), ("help_text", get_field_help_text i),
       ("required", Val.bool i.required)] kw)

/-- MongoFormFieldGenerator.generate_filefield. -/
def generate_filefield (i : FieldInfo) (kw : Dict) : FormField :=
  FormField.mk ("FileField") []
    (updateDict
      [("required", Val.bool i.required), ("label", get_field_label i),
       ("initial", i.default), ("help_text", get_field_help_text i)] kw)

/-- MongoFormFieldGenerator.generate_imagefield. -/
def generate_imagefield (i : FieldInfo) (kw : Dict) : FormField :=
  FormField.mk ("ImageField") []
    (updateDict
      [("required", Val.bool i.required), ("label", get_field_label i),
       ("initial", i.default), ("help_text", get_field_help_text i)] kw)

/-- The class of the value returned by a recursive generate call; Python None
has class NoneType. -/
def classOfOpt : Option FormField → String
  | Option.some f => f.cls
  | Option.none => "NoneType"

/-- MongoFormFieldGenerator.generate_listfield.  elem is the field.field
attribute (absent on a non-container descriptor, giving AttributeError), and
recurElem is the outcome of the recursive self.generate(field.field) call.
When the element is an EmbeddedDocumentField every branch is skipped and
Python returns None. -/
def generate_listfield (i : FieldInfo) (elem : Option FieldDesc)
    (recurElem : GenResult) (kw : Dict) : GenResult :=
  match elem with
  | Option.none => Except.error PyErr.attrError
  | Option.some e =>
    if !((e.info).choices.isEmpty) then
      Except.ok (Option.some (FormField.mk ("MultipleChoiceField") []
        (updateDict
          [("choices", Val.pairs (e.info).choices), ("required", Val.bool i.required),
           ("label", get_field_label i), ("help_text", get_field_help_text i),
           ("widget", Val.widgetCheckboxMultiple)] kw)))
    else if (e.info).isRefInstance then
      Except.ok (Option.some (FormField.mk ("DocumentMultipleChoiceField")
        [Val.queryset (e.info).documentType]
        (updateDict
          [("label", get_field_label i), ("help_text", get_field_help_text i),
           ("required", Val.bool i.required)] kw)))
    else if !((e.info).isEmbeddedInstance) then
      match recurElem with
      | Except.error err => Except.error err
      | Except.ok ff =>
        Except.ok (Option.some (FormField.mk ("ListField")
          [Val.fieldClass (classOfOpt ff)]
          (updateDict
            [("label", get_field_label i), ("help_text", get_field_help_text i),
             ("required", Val.bool i.required)] kw)))
    else
      Except.ok Option.none

/-- MongoFormFieldGenerator.generate_mapfield. -/
def generate_mapfield (i : FieldInfo) (elem : Option FieldDesc)
    (recurElem : GenResult) (kw : Dict) : GenResult :=
  match elem with
  | Option.none => Except.error PyErr.attrError
  | Option.some _ =>
    match recurElem with
    | Except.error err => Except.error err
    | Except.ok ff =>
      Except.ok (Option.some (FormField.mk ("MapField")
        [Val.fieldClass (classOfOpt ff)]
        (updateDict
          [("label", get_field_label i), ("help_text", get_field_help_text i),
           ("required", Val.bool i.required)] kw)))

/-- The lower-cased field kind names for which a generate handler method
exists on MongoFormFieldGenerator. -/
def handlerNames : List String :=
  ["stringfield", "emailfield", "urlfield", "intfield", "floatfield",
   "decimalfield", "booleanfield", "datetimefield", "referencefield",
   "listfield", "mapfield", "filefield", "imagefield"]

/-- Model of hasattr(self, generate_name). -/
def hasHandler (n : String) : Bool := handlerNames.contains n

/-- MongoFormFieldGenerator.field_map, the kind-name alias table; the
generate_ method-name prefix is left implicit. -/
def field_map : String → Option String :=
  fun n => if n == "sortedlistfield" then Option.some ("listfield") else Option.none

/-- Model of getattr(self, generate_n)(field, kwargs): dispatch to a handler
by lower-cased kind name; a missing method raises AttributeError. -/
def callHandler (n : String) (i : FieldInfo) (elem : Option FieldDesc)
    (recurElem : GenResult) (kw : Dict) : GenResult :=
  match n with
  | "stringfield" => Except.ok (Option.some (generate_stringfield i kw))
  | "emailfield" => Except.ok (Option.some (generate_emailfield i kw))
  | "urlfield" => Except.ok (Option.some (generate_urlfield i kw))
  | "intfield" => Except.ok (Option.some (generate_intfield i kw))
  | "floatfield" => Except.ok (Option.some (generate_floatfield i kw))
  | "decimalfield" => Except.ok (Option.some (generate_decimalfield i kw))
  | "booleanfield" => Except.ok (Option.some (generate_booleanfield i kw))
  | "datetimefield" => Except.ok (Option.some (generate_datetimefield i kw))
  | "referencefield" => Except.ok (Option.some (generate_referencefield i kw))
  | "listfield" => generate_listfield i elem recurElem kw
  | "mapfield" => generate_mapfield i elem recurElem kw
  | "filefield" => Except.ok (Option.some (generate_filefield i kw))
  | "imagefield" => Except.ok (Option.some (generate_imagefield i kw))
  | _ => Except.error PyErr.attrError

/-- The for-loop over field.__class__.__bases__ in generate: for the first
base class, try its handler (an AttributeError from the missing method, or
raised inside the handler itself, is caught); on AttributeError consult
field_map, else raise NotImplementedError.  Every branch of the body returns
or raises, so later bases are never reached; an empty list means the loop
body never runs and the function returns Python None. -/
def tryBases (i : FieldInfo) (elem : Option FieldDesc) (recurElem : GenResult)
    (kw : Dict) : List String → GenResult
  | [] => Except.ok Option.none
  | b :: _ =>
    let cls_name := strLower b
    let attempt : GenResult :=
      if hasHandler cls_name then callHandler cls_name i elem recurElem kw
      else Except.error PyErr.attrError
    match attempt with
    | Except.error PyErr.attrError =>
      match field_map cls_name with
      | Option.some m => callHandler m i elem recurElem kw
      | Option.none => Except.error PyErr.notImplemented
    | r => r

/-- The body of MongoFormFieldGenerator.generate: exact lower-cased class
name first, then the base-class loop. -/
def strictDispatch (i : FieldInfo) (elem : Option FieldDesc) (recurElem : GenResult)
    (kw : Dict) : GenResult :=
  let field_name := strLower i.className
  if hasHandler field_name then callHandler field_name i elem recurElem kw
  else tryBases i elem recurElem kw i.bases

/-- The fallback branch of MongoDefaultFormFieldGenerator.generate: a plain
CharField taking required always, and min_length, max_length and initial
exactly when the descriptor has those attributes. -/
def lenientFallback (i : FieldInfo) (kw : Dict) : FormField :=
  let d0 : Dict := [("required", Val.bool i.required)]
  let d1 : Dict := if i.hasMinLength then d0 ++ [("min_length", optIntVal i.minLength)] else d0
  let d2 : Dict := if i.hasMaxLength then d1 ++ [("max_length", optIntVal i.maxLength)] else d1
  let d3 : Dict := if i.hasDefault then d2 ++ [("initial", i.default)] else d2
  FormField.mk ("CharField") [] (updateDict d3 kw)

/-- One generate call at a given descriptor level: the strict variant runs
the dispatch as is; the lenient variant catches NotImplementedError and
falls back to a CharField. -/
def genCore (v : Variant) (i : FieldInfo) (elem : Option FieldDesc)
    (recurElem : GenResult) (kw : Dict) : GenResult :=
  match v with
  | Variant.strict => strictDispatch i elem recurElem kw
  | Variant.lenient =>
    match strictDispatch i elem recurElem kw with
    | Except.error PyErr.notImplemented =>
      Except.ok (Option.some (lenientFallback i kw))
    | r => r

/-- generate of either variant: the recursive self.generate(field.field) call
made by the list and map handlers dispatches dynamically, hence uses the same
variant, and passes no keyword overrides. -/
def generate : Variant → FieldDesc → Dict → GenResult
  | v, FieldDesc.base i, kw => genCore v i Option.none (Except.error PyErr.attrError) kw
  | v, FieldDesc.withElem i e, kw => genCore v i (Option.some e) (generate v e []) kw

/-- The class of a generated field, when one was produced. -/
def resultClass : GenResult → Option String
  | Except.ok (Option.some f) => Option.some f.cls
  | _ => Option.none

/-- A keyword argument of a generated field, when one was produced. -/
def argOf (r : GenResult) (k : String) : Option Val :=
  match r with
  | Except.ok (Option.some f) => lookupD f.args k
  | _ => Option.none

/-- The positional constructor arguments of a generated field. -/
def posOf : GenResult → List Val
  | Except.ok (Option.some f) => f.posArgs
  | _ => []

/-- Whether a generate call produced a form field. -/
def isOkSome : GenResult → Bool
  | Except.ok (Option.some _) => true
  | _ => false

theorem updateDict_nil (d : Dict) : updateDict d [] = d := by
  simp [updateDict]

theorem lookupD_updateDict (d kw : Dict) (k : String) (v : Val)
    (h : lookupD kw k = Option.some v) :
    lookupD (updateDict d kw) k = Option.some v := by
  unfold lookupD updateDict at *
  rw [List.find?_append]
  cases hf : kw.find? (fun p => p.fst == k) with
  | none => rw [hf] at h; simp at h
  | some p => rw [hf] at h; simpa using h

/-- Every form field a call produces has as keyword arguments some computed
defaults dictionary updated with the callers overrides. -/
def argsShape (r : GenResult) (kw : Dict) : Prop :=
  ∀ f, r = Except.ok (Option.some f) → ∃ d0, f.args = updateDict d0 kw

theorem stringfield_args_shape (i : FieldInfo) (kw : Dict) :
    ∃ d0, (generate_stringfield i kw).args = updateDict d0 kw := by
  unfold generate_stringfield
  repeat' split
  all_goals exact ⟨_, rfl⟩

theorem listfield_args_shape (i : FieldInfo) (elem : Option FieldDesc) (r : GenResult)
    (kw : Dict) : argsShape (generate_listfield i elem r kw) kw := by
  intro f h
  unfold generate_listfield at h
  repeat' split at h
  all_goals simp_all
  all_goals (subst h; exact ⟨_, rfl⟩)

theorem mapfield_args_shape (i : FieldInfo) (elem : Option FieldDesc) (r : GenResult)
    (kw : Dict) : argsShape (generate_mapfield i elem r kw) kw := by
  intro f h
  unfold generate_mapfield at h
  repeat' split at h
  all_goals simp_all
  all_goals (subst h; exact ⟨_, rfl⟩)

theorem fallback_args_shape (i : FieldInfo) (kw : Dict) :
    ∃ d0, (lenientFallback i kw).args = updateDict d0 kw := by
  unfold lenientFallback
  repeat' split
  all_goals exact ⟨_, rfl⟩

theorem callHandler_args_shape (n : String) (i : FieldInfo) (elem : Option FieldDesc)
    (r : GenResult) (kw : Dict) : argsShape (callHandler n i elem r kw) kw := by
  intro f h
  unfold callHandler at h
  split at h
  all_goals first
    | exact listfield_args_shape i elem r kw f h
    | exact mapfield_args_shape i elem r kw f h
    | simp_all
  all_goals (subst h; first
    | exact stringfield_args_shape i kw
    | exact ⟨_, rfl⟩
    | (simp only [generate_intfield, generate_booleanfield]
       repeat' split
       all_goals exact ⟨_, rfl⟩))

theorem tryBases_args_shape (i : FieldInfo) (elem : Option FieldDesc) (r : GenResult)
    (kw : Dict) (bs : List String) : argsShape (tryBases i elem r kw bs) kw := by
  intro f h
  cases bs with
  | nil => simp [tryBases] at h
  | cons b t =>
    simp only [tryBases] at h
    by_cases hH : hasHandler (strLower b) = true
    · rw [if_pos hH] at h
      cases hX : callHandler (strLower b) i elem r kw with
      | error e =>
        rw [hX] at h
        cases e with
        | notImplemented => simp at h
        | attrError =>
          simp at h
          cases hM : field_map (strLower b) with
          | none => rw [hM] at h; simp at h
          | some m => rw [hM] at h; simp at h; exact callHandler_args_shape m i elem r kw f h
      | ok o =>
        rw [hX] at h
        simp at h
        exact callHandler_args_shape (strLower b) i elem r kw f (by rw [hX, h])
    · rw [if_neg hH] at h
      simp at h
      cases hM : field_map (strLower b) with
      | none => rw [hM] at h; simp at h
      | some m => rw [hM] at h; simp at h; exact callHandler_args_shape m i elem r kw f h

theorem strictDispatch_args_shape (i : FieldInfo) (elem : Option FieldDesc) (r : GenResult)
    (kw : Dict) : argsShape (strictDispatch i elem r kw) kw := by
  intro f h
  simp only [strictDispatch] at h
  by_cases hH : hasHandler (strLower i.className) = true
  · rw [if_pos hH] at h
    exact callHandler_args_shape _ i elem r kw f h
  · rw [if_neg hH] at h
    exact tryBases_args_shape i elem r kw _ f h

theorem genCore_args_shape (v : Variant) (i : FieldInfo) (elem : Option FieldDesc)
    (r : GenResult) (kw : Dict) : argsShape (genCore v i elem r kw) kw := by
  intro f h
  cases v with
  | strict =>
    simp only [genCore] at h
    exact strictDispatch_args_shape i elem r kw f h
  | lenient =>
    simp only [genCore] at h
    cases hX : strictDispatch i elem r kw with
    | error e =>
      rw [hX] at h
      cases e with
      | notImplemented =>
        simp at h
        subst h
        exact fallback_args_shape i kw
      | attrError => simp at h
    | ok o =>
      rw [hX] at h
      simp at h
      exact strictDispatch_args_shape i elem r kw f (by rw [hX, h])

theorem generate_args_shape (v : Variant) (d : FieldDesc) (kw : Dict) :
    argsShape (generate v d kw) kw := by
  intro f h
  cases d with
  | base i => exact genCore_args_shape v i _ _ kw f h
  | withElem i e => exact genCore_args_shape v i _ _ kw f h

/-- A neutral descriptor record used as the base of the concrete test
descriptors below. -/
def plainInfo : FieldInfo := {
  className := "",
  bases := [],
  verboseName := Option.none,
  name := Option.none,
  helpText := Option.none,
  default := Val.none,
  required := true,
  choices := [],
  maxLength := Option.none,
  minLength := Option.none,
  maxValue := Option.none,
  minValue := Option.none,
  regex := Option.none,
  documentType := "",
  hasMinLength := false,
  hasMaxLength := false,
  hasDefault := false,
  isRefInstance := false,
  isEmbeddedInstance := false }

/-- A descriptor of an unsupported kind whose first base class has neither a
handler nor an alias, while its second base class (StringField) has a handler. -/
def c1Desc : FieldDesc := FieldDesc.base
  { plainInfo with
    className := "CustomField"
    bases := ["UnknownBase", "StringField"] }

/-- The same descriptor data with the base classes swapped, so that the base
class with a handler comes first. -/
def c1DescSwapped : FieldDesc := FieldDesc.base
  { plainInfo with
    className := "CustomField"
    bases := ["StringField", "UnknownBase"] }

/-- A string descriptor carrying both a regex and choices. -/
def c3Desc : FieldDesc := FieldDesc.base
  { plainInfo with
    className := "StringField"
    regex := Option.some ".*"
    choices := [(ChoiceVal.s "a", "A")] }

/-- A list descriptor whose element is an embedded-document field without
choices. -/
def c4Desc : FieldDesc := FieldDesc.withElem
  { plainInfo with className := "ListField" }
  (FieldDesc.base
    { plainInfo with
      className := "EmbeddedDocumentField"
      isEmbeddedInstance := true })

/-- The string descriptor of the worked example: choices a/A and b/B,
required False. -/
def c5Desc : FieldDesc := FieldDesc.base
  { plainInfo with
    className := "StringField"
    required := false
    choices := [(ChoiceVal.s "a", "A"), (ChoiceVal.s "b", "B")] }

/-- A string descriptor whose help text has an upper-case letter after the
first character. -/
def c7Desc : FieldDesc := FieldDesc.base
  { plainInfo with
    className := "StringField"
    helpText := Option.some "aB" }

/-- A concrete descriptor used to instantiate the determinism theorem. -/
def c8Desc : FieldDesc := FieldDesc.base
  { plainInfo with className := "IntField" }

/-- A boolean descriptor with choices, as used by the coercion claim. -/
def c10Desc : FieldDesc := FieldDesc.base
  { plainInfo with
    className := "BooleanField"
    choices := [(ChoiceVal.s "true", "Yes"), (ChoiceVal.s "false", "No")] }

/-- C1: the spec claims the strict generate tries the exact kind name, then
every ancestor in declaration order, then the alias table, and raises
UnsupportedKind only when no path resolves.  The code raises
NotImplementedError at the FIRST ancestor that has neither a handler nor an
alias entry: the loop body over the base classes returns or raises in its
first iteration, so a later ancestor with a handler is never tried.  Here the
descriptor CustomField(UnknownBase, StringField) raises even though the
StringField handler exists and resolves when that base is first. -/
theorem c1_first_base_without_handler_raises_unsupported :
    generate Variant.strict c1Desc [] = Except.error PyErr.notImplemented ∧
    hasHandler (strLower "StringField") = true ∧
    resultClass (generate Variant.strict c1DescSwapped []) = Option.some "MongoCharField" :=
  ⟨rfl, rfl, rfl⟩

/-- C3 counterexample: a string descriptor that carries both a regex and a
non-empty choices list is generated as a plain regex-validated text field
(MongoCharField), not as a choice-style field, because the regex branch of
generate_stringfield shadows the choices branch. -/
theorem c3_regex_beats_choices_counterexample :
    resultClass (generate Variant.strict c3Desc []) = Option.some "MongoCharField" ∧
    resultClass (generate Variant.strict c3Desc []) ≠ Option.some "TypedChoiceField" ∧
    argOf (generate Variant.strict c3Desc []) "regex" = Option.some (Val.str ".*") :=
  ⟨rfl, by decide, rfl⟩

/-- C4 counterexample: a list descriptor whose element is an embedded-document
field (without choices) falls through every branch of generate_listfield and
returns Python None instead of a homogeneous-list field. -/
theorem c4_embedded_list_yields_none_counterexample :
    generate Variant.strict c4Desc [] = Except.ok Option.none ∧
    resultClass (generate Variant.strict c4Desc []) ≠ Option.some "ListField" :=
  ⟨rfl, by decide⟩

/-- C5: a string descriptor with choices a/A and b/B and required False yields
a TypedChoiceField whose options are exactly the blank sentinel pair followed
by the descriptor choices in order, and whose empty value is None. -/
theorem c5_string_choices_example :
    resultClass (generate Variant.strict c5Desc []) = Option.some "TypedChoiceField" ∧
    argOf (generate Variant.strict c5Desc []) "choices" =
      Option.some (Val.pairs
        [(ChoiceVal.s "", "---------"), (ChoiceVal.s "a", "A"), (ChoiceVal.s "b", "B")]) ∧
    argOf (generate Variant.strict c5Desc []) "empty_value" = Option.some Val.none :=
  ⟨rfl, rfl, rfl⟩

/-- C7 counterexample: for a descriptor with help text aB the computed help
text is Ab, because Python capitalize also lower-cases the remaining
characters, whereas capitalizing only the first letter (which the claim
states, and which capfirst would compute) gives AB. -/
theorem c7_capitalize_counterexample :
    argOf (generate Variant.strict c7Desc []) "help_text" = Option.some (Val.str "Ab") ∧
    Option.some (Val.str "Ab") ≠ Option.some (Val.str "AB") ∧
    capfirst "aB" = "AB" :=
  ⟨rfl, by decide, rfl⟩

/-- C8: generate of either variant is a pure function of the descriptor and
the keyword overrides: equal inputs give equal form-field value objects.  The
embedding is a total function because the source reads descriptor attributes
and builds fresh dictionaries without writing any shared state. -/
theorem c8_generate_deterministic (v : Variant) (d d' : FieldDesc) (kw kw' : Dict)
    (hd : d = d') (hkw : kw = kw') :
    generate v d kw = generate v d' kw' := by
  rw [hd, hkw]

/-- C8 witness: the determinism theorem applied at a concrete descriptor. -/
theorem c8_witness :
    generate Variant.strict c8Desc [] = generate Variant.strict c8Desc [] :=
  c8_generate_deterministic Variant.strict c8Desc c8Desc [] [] rfl rfl

/-- A string descriptor with a verbose name, whose computed label the caller
overrides. -/
def c6Desc : FieldDesc := FieldDesc.base
  { plainInfo with
    className := "StringField"
    verboseName := Option.some "original" }

/-- The caller overrides of the C6 witness. -/
def c6Kw : Dict := [("label", Val.str "overridden")]

/-- C6: for every per-kind handler of either variant and every caller-supplied
keyword override, the value of that key among the arguments actually passed to
the form-field constructor is the caller value: every handler ends by updating
its computed defaults with the caller overrides. -/
theorem c6_overrides_take_precedence (v : Variant) (d : FieldDesc) (kw : Dict)
    (k : String) (val : Val) (hk : lookupD kw k = Option.some val)
    (hok : isOkSome (generate v d kw) = true) :
    argOf (generate v d kw) k = Option.some val := by
  cases hX : generate v d kw with
  | error e => rw [hX] at hok; simp [isOkSome] at hok
  | ok o =>
    cases o with
    | none => rw [hX] at hok; simp [isOkSome] at hok
    | some f =>
      obtain ⟨d0, hargs⟩ := generate_args_shape v d kw f hX
      simp [argOf, hX, hargs]
      exact lookupD_updateDict d0 kw k val hk

/-- C6 witness: a caller-supplied label overrides the label computed from the
verbose name of the descriptor. -/
theorem c6_witness :
    argOf (generate Variant.strict c6Desc c6Kw) "label" = Option.some (Val.str "overridden") :=
  c6_overrides_take_precedence Variant.strict c6Desc c6Kw "label"
    (Val.str "overridden") rfl rfl

/-- C10: the coercion attached to boolean choice fields maps every empty value
(None, the empty string, empty list, tuple and dict) to None and maps every
other string to the comparison of its lower-cased form with the word true;
and the generated boolean choice field indeed carries this coercion. -/
theorem c10_boolean_coercion (s : String) :
    boolean_field Submitted.pynone = Except.ok Option.none ∧
    boolean_field (Submitted.pystr "") = Except.ok Option.none ∧
    boolean_field (Submitted.pylist 0) = Except.ok Option.none ∧
    boolean_field (Submitted.pytuple 0) = Except.ok Option.none ∧
    boolean_field (Submitted.pydict 0) = Except.ok Option.none ∧
    (s ≠ "" → boolean_field (Submitted.pystr s) =
      Except.ok (Option.some (strLower s == "true"))) ∧
    argOf (generate Variant.strict c10Desc []) "coerce" = Option.some Val.coerceBool := by
  refine ⟨rfl, rfl, rfl, rfl, rfl, ?_, rfl⟩
  intro h
  simp [boolean_field, inEmptyValues, h]

/-- C10 witness: the coercion theorem instantiated at the string True, whose
hypothesis of being non-empty holds. -/
theorem c10_witness :
    boolean_field (Submitted.pystr "True") = Except.ok (Option.some (strLower "True" == "true")) :=
  (c10_boolean_coercion "True").2.2.2.2.2.1 (by decide)

/-- A descriptor of an unrecognized kind whose single base class also has no
handler, exposing a min length, a max length and a default. -/
def c2Info : FieldInfo :=
  { plainInfo with
    className := "WeirdField"
    bases := ["SomeBase"]
    hasMinLength := true
    minLength := Option.some 1
    hasMaxLength := true
    maxLength := Option.some 12
    hasDefault := true
    default := Val.str "d" }

/-- C2: the lenient generator never fails with UnsupportedKind for any
descriptor; when the strict resolution fails it falls back to a generic
CharField taking required always and min length, max length and initial
exactly when the descriptor exposes those attributes; and the strict
generator raises UnsupportedKind for an unrecognized kind (exact name without
handler whose first base class has neither handler nor alias). -/
theorem c2_lenient_total_strict_raises :
    (∀ (d : FieldDesc) (kw : Dict),
      generate Variant.lenient d kw ≠ Except.error PyErr.notImplemented) ∧
    (∀ (i : FieldInfo),
      generate Variant.strict (FieldDesc.base i) [] = Except.error PyErr.notImplemented →
        resultClass (generate Variant.lenient (FieldDesc.base i) []) = Option.some "CharField" ∧
        argOf (generate Variant.lenient (FieldDesc.base i) []) "required" =
          Option.some (Val.bool i.required) ∧
        argOf (generate Variant.lenient (FieldDesc.base i) []) "min_length" =
          (if i.hasMinLength then Option.some (optIntVal i.minLength) else Option.none) ∧
        argOf (generate Variant.lenient (FieldDesc.base i) []) "max_length" =
          (if i.hasMaxLength then Option.some (optIntVal i.maxLength) else Option.none) ∧
        argOf (generate Variant.lenient (FieldDesc.base i) []) "initial" =
          (if i.hasDefault then Option.some i.default else Option.none)) ∧
    (∀ (i : FieldInfo) (kw : Dict) (b : String),
      hasHandler (strLower i.className) = false →
      i.bases.head? = Option.some b →
      hasHandler (strLower b) = false →
      field_map (strLower b) = Option.none →
      generate Variant.strict (FieldDesc.base i) kw = Except.error PyErr.notImplemented) := by
  refine ⟨?_, ?_, ?_⟩
  · intro d kw
    cases d with
    | base i =>
      simp only [generate, genCore]
      cases hX : strictDispatch i Option.none (Except.error PyErr.attrError) kw with
      | error e => cases e <;> simp
      | ok o => simp
    | withElem i e =>
      simp only [generate, genCore]
      cases hX : strictDispatch i (Option.some e) (generate Variant.lenient e []) kw with
      | error er => cases er <;> simp
      | ok o => simp
  · intro i h
    simp only [generate, genCore] at h ⊢
    rw [h]
    simp only [resultClass, argOf, lenientFallback, updateDict_nil]
    cases hml : i.hasMinLength <;> cases hmx : i.hasMaxLength <;> cases hd : i.hasDefault <;>
      simp [lookupD, updateDict]
  · intro i kw b h1 h2 h3 h4
    cases hb : i.bases with
    | nil => rw [hb] at h2; simp at h2
    | cons x t =>
      rw [hb] at h2
      simp at h2
      subst h2
      simp only [generate, genCore, strictDispatch]
      rw [if_neg (by simp [h1]), hb]
      simp only [tryBases]
      rw [if_neg (by simp [h3]), h4]

/-- C2 witness: for a concrete unrecognized descriptor the strict generator
raises UnsupportedKind, the lenient generator returns a CharField, and its
max length is copied from the descriptor. -/
theorem c2_witness :
    generate Variant.strict (FieldDesc.base c2Info) [] = Except.error PyErr.notImplemented ∧
    resultClass (generate Variant.lenient (FieldDesc.base c2Info) []) = Option.some "CharField" ∧
    generate Variant.lenient (FieldDesc.base c2Info) [] ≠ Except.error PyErr.notImplemented :=
  ⟨c2_lenient_total_strict_raises.2.2 c2Info [] "SomeBase" rfl rfl rfl rfl,
   (c2_lenient_total_strict_raises.2.1 c2Info rfl).1,
   c2_lenient_total_strict_raises.1 (FieldDesc.base c2Info) []⟩

/-- C3 amended: for every integer or boolean descriptor with non-empty
choices the generated field is a coercing TypedChoiceField; for a string
descriptor with non-empty choices the same holds provided no regex is set —
with a regex, the regex branch wins and a plain regex-validated text field is
generated (see the counterexample). -/
theorem c3_choices_yield_choice_field_amended (i : FieldInfo) (kw : Dict)
    (hc : i.choices ≠ []) :
    ((strLower i.className = "intfield" ∨ strLower i.className = "booleanfield") →
      resultClass (generate Variant.strict (FieldDesc.base i) kw) =
        Option.some "TypedChoiceField") ∧
    (strLower i.className = "stringfield" → i.regex = Option.none →
      resultClass (generate Variant.strict (FieldDesc.base i) kw) =
        Option.some "TypedChoiceField") := by
  have hce : i.choices.isEmpty = false := by
    cases hx : i.choices with
    | nil => exact absurd hx hc
    | cons a l => rfl
  constructor
  · intro h
    cases h with
    | inl h =>
      simp only [generate, genCore, strictDispatch, h]
      simp [callHandler, hasHandler, handlerNames, generate_intfield, hce, resultClass]
    | inr h =>
      simp only [generate, genCore, strictDispatch, h]
      simp [callHandler, hasHandler, handlerNames, generate_booleanfield, hce, resultClass]
  · intro h hr
    simp only [generate, genCore, strictDispatch, h]
    simp [callHandler, hasHandler, handlerNames, generate_stringfield, hce, hr, resultClass]

/-- An integer descriptor with choices. -/
def c3IntInfo : FieldInfo :=
  { plainInfo with
    className := "IntField"
    choices := [(ChoiceVal.i 1, "one"), (ChoiceVal.i 2, "two")] }

/-- A string descriptor with choices and no regex. -/
def c3StrInfo : FieldInfo :=
  { plainInfo with
    className := "StringField"
    choices := [(ChoiceVal.s "a", "A")] }

/-- C3 witness: the amended theorem instantiated at an integer descriptor and
at a regex-free string descriptor, both with non-empty choices. -/
theorem c3_witness :
    resultClass (generate Variant.strict (FieldDesc.base c3IntInfo) []) =
      Option.some "TypedChoiceField" ∧
    resultClass (generate Variant.strict (FieldDesc.base c3StrInfo) []) =
      Option.some "TypedChoiceField" :=
  ⟨(c3_choices_yield_choice_field_amended c3IntInfo [] (by decide)).1 (Or.inl rfl),
   (c3_choices_yield_choice_field_amended c3StrInfo [] (by decide)).2 rfl rfl⟩

/-- C4 amended: a list descriptor is generated by a three-way branch on its
element — element choices give a MultipleChoiceField over exactly those
choices with a checkbox widget, a foreign-reference element gives a
DocumentMultipleChoiceField bound to the queryset of the referenced document,
and every remaining element kind that is NOT an embedded-document field has
its form field generated recursively and wrapped in a homogeneous ListField
(recursive failures propagate) — while an embedded-document element falls
through every branch and yields Python None instead of a form field. -/
theorem c4_listfield_branching_amended (i : FieldInfo) (e : FieldDesc)
    (h : strLower i.className = "listfield") :
    ((e.info).choices ≠ [] →
      resultClass (generate Variant.strict (FieldDesc.withElem i e) []) =
        Option.some "MultipleChoiceField" ∧
      argOf (generate Variant.strict (FieldDesc.withElem i e) []) "choices" =
        Option.some (Val.pairs (e.info).choices) ∧
      argOf (generate Variant.strict (FieldDesc.withElem i e) []) "widget" =
        Option.some Val.widgetCheckboxMultiple) ∧
    ((e.info).choices = [] → (e.info).isRefInstance = true →
      resultClass (generate Variant.strict (FieldDesc.withElem i e) []) =
        Option.some "DocumentMultipleChoiceField" ∧
      posOf (generate Variant.strict (FieldDesc.withElem i e) []) =
        [Val.queryset (e.info).documentType]) ∧
    ((e.info).choices = [] → (e.info).isRefInstance = false →
      (e.info).isEmbeddedInstance = false →
      (∀ err, generate Variant.strict e [] = Except.error err →
        generate Variant.strict (FieldDesc.withElem i e) [] = Except.error err) ∧
      (∀ ff, generate Variant.strict e [] = Except.ok ff →
        resultClass (generate Variant.strict (FieldDesc.withElem i e) []) =
          Option.some "ListField" ∧
        posOf (generate Variant.strict (FieldDesc.withElem i e) []) =
          [Val.fieldClass (classOfOpt ff)])) ∧
    ((e.info).choices = [] → (e.info).isRefInstance = false →
      (e.info).isEmbeddedInstance = true →
      generate Variant.strict (FieldDesc.withElem i e) [] = Except.ok Option.none) := by
  refine ⟨?_, ?_, ?_, ?_⟩
  · intro hc
    have hce : (e.info).choices.isEmpty = false := by
      cases hx : (e.info).choices with
      | nil => exact absurd hx hc
      | cons a l => rfl
    simp only [generate, genCore, strictDispatch, h]
    simp [callHandler, hasHandler, handlerNames, generate_listfield, hce,
      resultClass, argOf, lookupD, updateDict]
  · intro hc hr
    simp only [generate, genCore, strictDispatch, h]
    simp [callHandler, hasHandler, handlerNames, generate_listfield, hc, hr,
      resultClass, posOf]
  · intro hc hr hemb
    constructor
    · intro err herr
      simp only [generate, genCore, strictDispatch, h]
      simp [callHandler, hasHandler, handlerNames, generate_listfield, hc, hr, hemb, herr]
    · intro ff hff
      simp only [generate, genCore, strictDispatch, h]
      simp [callHandler, hasHandler, handlerNames, generate_listfield, hc, hr, hemb, hff,
        resultClass, posOf]
  · intro hc hr hemb
    simp only [generate, genCore, strictDispatch, h]
    simp [callHandler, hasHandler, handlerNames, generate_listfield, hc, hr, hemb]

/-- An integer descriptor used as a list element. -/
def c4ElemInfo : FieldInfo := { plainInfo with className := "IntField" }

/-- The form field generated for that element. -/
def c4ElemRes : Option FormField := Option.some (generate_intfield c4ElemInfo [])

/-- C4 witness: a list of plain integers takes the recursive branch of the
amended theorem and wraps the element field class in a ListField. -/
theorem c4_witness :
    resultClass (generate Variant.strict
      (FieldDesc.withElem { plainInfo with className := "ListField" }
        (FieldDesc.base c4ElemInfo)) []) = Option.some "ListField" ∧
    posOf (generate Variant.strict
      (FieldDesc.withElem { plainInfo with className := "ListField" }
        (FieldDesc.base c4ElemInfo)) []) = [Val.fieldClass (classOfOpt c4ElemRes)] :=
  ((c4_listfield_branching_amended { plainInfo with className := "ListField" }
      (FieldDesc.base c4ElemInfo) rfl).2.2.1 rfl rfl rfl).2 c4ElemRes rfl

/-- C7 amended: the computed label is the verbose name when that is non-empty,
else (when the attribute name is set) the name with camel-case humps split by
spaces, lower-cased and its first letter upper-cased, else the empty string;
the computed help text is the descriptor help text with the first character
upper-cased and the remaining characters lower-cased (Python capitalize) when
the help text is non-empty, and None otherwise. -/
theorem c7_label_and_help_text_amended (i : FieldInfo)
    (h : strLower i.className = "stringfield") :
    argOf (generate Variant.strict (FieldDesc.base i) []) "label" =
      Option.some (if truthyStr i.verboseName then Val.str (i.verboseName.getD "")
        else match i.name with
          | Option.some n => Val.str (capfirst (get_verbose_name n))
          | Option.none => Val.str "") ∧
    argOf (generate Variant.strict (FieldDesc.base i) []) "help_text" =
      Option.some (if truthyStr i.helpText then Val.str (pyCapitalize (i.helpText.getD ""))
        else Val.none) := by
  simp only [generate, genCore, strictDispatch, h]
  simp only [callHandler, hasHandler, handlerNames]
  norm_num
  unfold generate_stringfield
  repeat' split
  all_goals
    simp_all [argOf, lookupD, updateDict, get_field_label, get_field_help_text]

/-- A string descriptor with a name, no verbose name, and mixed-case help. -/
def c7WitInfo : FieldInfo :=
  { plainInfo with
    className := "StringField"
    name := Option.some "firstName"
    helpText := Option.some "aB" }

/-- C7 witness: the amended theorem at a concrete descriptor — the label is
the de-camel-cased attribute name with the first letter upper-cased, and the
help text is Python-capitalized. -/
theorem c7_witness :
    argOf (generate Variant.strict (FieldDesc.base c7WitInfo) []) "label" =
      Option.some (Val.str "First name") ∧
    argOf (generate Variant.strict (FieldDesc.base c7WitInfo) []) "help_text" =
      Option.some (Val.str "Ab") :=
  ⟨((c7_label_and_help_text_amended c7WitInfo rfl).1).trans (by decide),
   ((c7_label_and_help_text_amended c7WitInfo rfl).2).trans (by decide)⟩

/-- C9: for an integer or boolean descriptor with choices the generated
choice field has empty value None unconditionally, regardless of the required
flag; for a string descriptor with choices (and no regex) the empty value is
None exactly when the descriptor is not required, and the key is absent when
it is required. -/
theorem c9_empty_value_policy (i : FieldInfo) (hc : i.choices ≠ []) :
    (strLower i.className = "intfield" →
      argOf (generate Variant.strict (FieldDesc.base i) []) "empty_value" =
        Option.some Val.none) ∧
    (strLower i.className = "booleanfield" →
      argOf (generate Variant.strict (FieldDesc.base i) []) "empty_value" =
        Option.some Val.none) ∧
    (strLower i.className = "stringfield" → i.regex = Option.none →
      argOf (generate Variant.strict (FieldDesc.base i) []) "empty_value" =
        (if i.required then Option.none else Option.some Val.none)) := by
  have hce : i.choices.isEmpty = false := by
    cases hx : i.choices with
    | nil => exact absurd hx hc
    | cons a l => rfl
  refine ⟨?_, ?_, ?_⟩
  · intro h
    simp only [generate, genCore, strictDispatch, h]
    simp [callHandler, hasHandler, handlerNames, generate_intfield, hce, argOf,
      lookupD, updateDict]
  · intro h
    simp only [generate, genCore, strictDispatch, h]
    simp [callHandler, hasHandler, handlerNames, generate_booleanfield, hce, argOf,
      lookupD, updateDict]
  · intro h hr
    simp only [generate, genCore, strictDispatch, h]
    cases hreq : i.required <;>
      simp [callHandler, hasHandler, handlerNames, generate_stringfield, hce, hr, hreq,
        argOf, lookupD, updateDict]

/-- A required integer descriptor with choices. -/
def c9IntInfo : FieldInfo :=
  { plainInfo with
    className := "IntField"
    required := true
    choices := [(ChoiceVal.i 1, "one")] }

/-- A required string descriptor with choices and no regex. -/
def c9StrInfo : FieldInfo :=
  { plainInfo with
    className := "StringField"
    required := true
    choices := [(ChoiceVal.s "a", "A")] }

/-- C9 witness: a required integer choice descriptor still gets empty value
None, while a required string choice descriptor gets no empty value key. -/
theorem c9_witness :
    argOf (generate Variant.strict (FieldDesc.base c9IntInfo) []) "empty_value" =
      Option.some Val.none ∧
    argOf (generate Variant.strict (FieldDesc.base c9StrInfo) []) "empty_value" =
      Option.none :=
  ⟨(c9_empty_value_policy c9IntInfo (by decide)).1 rfl,
   ((c9_empty_value_policy c9StrInfo (by decide)).2.2 rfl rfl).trans (by decide)⟩

end Mongodbforms
